import Mathlib

/-!
Shallow embedding of `src/communication/communication.py`, a ZeroMQ-based
publish/subscribe module with three components: `MessageBroker` (a relay
proxying an ingress socket to an egress socket), `Publisher` (sends
`"topic!message"` frames), and `Subscriber` (installs a topic prefix filter
and runs a receive loop that strips `len(topic) + 1` characters from each
frame before invoking a user handler).

Python strings are sequences of Unicode code points; we embed them as lists
of characters.  Stateful socket traffic is embedded as explicit lists of
frames; the fallible parts (string formatting, socket binds) return `Option`
or `Except`.
-/

/-- A Python string: a finite sequence of Unicode code points. -/
abbrev PyStr := List Char

namespace Communication

/-- Python `str.format` restricted to the placeholder form actually used by
the source (`"{}!{}".format(self.topic, message)`): each `\x7b\x7d` pair in
the template is replaced by the next positional argument, copied verbatim
(arguments are never re-scanned for placeholders); any other template
character is copied through.  A placeholder with no remaining argument is
`none`, modelling the `IndexError` Python raises in that case; surplus
arguments are permitted, as in Python. -/
def pyFormat : PyStr → List PyStr → Option PyStr
  | [], _ => some []
  | '{' :: '}' :: rest, a :: args => (pyFormat rest args).map (fun t => a ++ t)
  | '{' :: '}' :: _, [] => none
  | c :: rest, args => (pyFormat rest args).map (fun t => c :: t)

/-- The template string literal of `Publisher.send`, that is `"\x7b\x7d!\x7b\x7d"`. -/
def sendTemplate : PyStr := '{' :: '}' :: '!' :: '{' :: '}' :: []

namespace Publisher

/-- The frame `Publisher.send` puts on the wire for a message:
`"\x7b\x7d!\x7b\x7d".format(self.topic, message)`, passed to
`socket.send_string` as a single text frame. -/
def sendFrame (topic message : PyStr) : Option PyStr :=
  pyFormat sendTemplate [topic, message]

end Publisher

/-- The wire frame as a plain concatenation: topic, separator `'!'`, payload.
This is the normal form of `Publisher.sendFrame`, proved in claim C5. -/
def encode (topic payload : PyStr) : PyStr := topic ++ '!' :: payload

/-- Python slicing `s[i:]` (one-sided, from `i`): for `i ≥ 0` it drops the
first `i` characters, returning `""` when `i ≥ len(s)`; for `i < 0` the start
index is `max 0 (len(s) + i)`.  Total: Python slicing never raises. -/
def pySliceFrom (s : PyStr) (i : Int) : PyStr :=
  if i < 0 then s.drop (s.length - (-i).toNat) else s.drop i.toNat

namespace Subscriber

/-- `Subscriber.__init__`: `self.msg_start = len(topic) + 1`, the index of the
first payload character in frames shaped like `"topic!message"`. -/
def msg_start (topic : PyStr) : Nat := topic.length + 1

/-- The payload extraction of `Subscriber.run`: `msg = msg_orig[self.msg_start:]`. -/
def decode (frame : PyStr) (ms : Nat) : PyStr :=
  pySliceFrom frame (ms : Int)

/-- Modelled from the spec: the subscription filter installed by
`Subscriber.__init__` via `socket.setsockopt_string(zmq.SUBSCRIBE, topic)` is
matched inside the ZeroMQ transport, whose code is not part of this
repository.  Per the spec it is a raw character-prefix test of the filter
string against the whole frame. -/
def matchesFilter (filt frame : PyStr) : Bool :=
  filt.isPrefixOf frame

/-- The body of `Subscriber.run`, unrolled over a finite prefix of the
received frame stream.  Each iteration receives one frame, strips the first
`ms` characters, and invokes the handler on the result.  The handler is a
state transformer that may raise (`none`); `run` has no exception handling,
so a raise aborts the loop.  Returns the list of payloads actually passed to
the handler together with `some` final state, or `none` when the handler
raised. -/
def runLoop (ms : Nat) (handler : σ → PyStr → Option σ) :
    σ → List PyStr → List PyStr × Option σ
  | s, [] => ([], some s)
  | s, f :: rest =>
    match handler s (decode f ms) with
    | none => ([decode f ms], none)
    | some s' =>
      let r := runLoop ms handler s' rest
      (decode f ms :: r.1, r.2)

end Subscriber

namespace MessageBroker

/-- Modelled from the spec: the relay step of `zmq.proxy(frontend, backend)`
(inside the ZeroMQ library, not in this repository) for a single frame.  Per
the spec the broker copies each ingress frame to egress verbatim, without
inspecting it. -/
def forward (frame : PyStr) : PyStr := frame

/-- Modelled from the spec: the unbounded forwarding loop of
`zmq.proxy(frontend, backend)`, unrolled over a finite prefix of the ingress
frame stream: each ingress frame is relayed to egress in arrival order. -/
def forwardLoop : List PyStr → List PyStr
  | [] => []
  | f :: rest => forward f :: forwardLoop rest

/-- Modelled from the spec: the startup sequence of `MessageBroker.run`.  The
two socket binds (`frontend.bind`, `backend.bind`) are fallible operations of
the ZeroMQ library, embedded as `Except` values; `run` contains no exception
handling, so it performs the first bind, then the second, and any failure
propagates immediately to the caller of `run`. -/
def runBinds {ε α : Type} (front back : Except ε α) : Except ε (α × α) := do
  let f ← front
  let b ← back
  pure (f, b)

end MessageBroker

/-- Helper: `pySliceFrom` at a nonnegative index is `List.drop`. -/
theorem pySliceFrom_ofNat (s : PyStr) (n : Nat) :
    pySliceFrom s (n : Int) = s.drop n := by
  simp [pySliceFrom]

/-- Helper: `Subscriber.decode` is `List.drop` at `msg_start`. -/
theorem decode_eq_drop (frame : PyStr) (ms : Nat) :
    Subscriber.decode frame ms = frame.drop ms :=
  pySliceFrom_ofNat frame ms

/-- Helper: a non-raising handler makes `runLoop` dispatch every frame's
decoded payload exactly once, in order, and finish in a `some` state. -/
theorem runLoop_total {σ : Type} (ms : Nat) (handler : σ → PyStr → Option σ)
    (hne : ∀ t p, handler t p ≠ none) :
    ∀ (s : σ) (frames : List PyStr),
      (Subscriber.runLoop ms handler s frames).1
          = frames.map (fun f => Subscriber.decode f ms)
        ∧ (Subscriber.runLoop ms handler s frames).2 ≠ none := by
  intro s frames
  induction frames generalizing s with
  | nil => simp [Subscriber.runLoop]
  | cons f rest ih =>
    cases hh : handler s (Subscriber.decode f ms) with
    | none => exact absurd hh (hne s _)
    | some s' =>
      simpa [Subscriber.runLoop, hh] using ih s'

end Communication

open Communication

/-- Claim C1: for every topic `T` not containing the separator `'!'` and every
payload `M`, decoding the encoded frame with the topic's length recovers the
payload exactly: stripping `msg_start T = len T + 1` characters from
`T ++ "!" ++ M` yields `M`. -/
theorem claim1_round_trip (T M : PyStr) (hT : '!' ∉ T) :
    Subscriber.decode (encode T M) (Subscriber.msg_start T) = M := by
  rw [decode_eq_drop, encode, Subscriber.msg_start]
  rw [show T ++ '!' :: M = (T ++ ['!']) ++ M by simp]
  exact List.drop_left' (by simp)

/-- Witness for C1 at topic `"weather"`, payload `"22C"`. -/
theorem claim1_round_trip_witness :
    '!' ∉ "weather".data
      ∧ Subscriber.decode (encode "weather".data "22C".data)
          (Subscriber.msg_start "weather".data) = "22C".data :=
  ⟨by decide, claim1_round_trip "weather".data "22C".data (by decide)⟩

/-- Claim C2: the subscription filter is a raw character-prefix test on the
whole frame: a frame encoded from `(T', M)` matches filter `T` iff `T` is a
prefix of the frame string; a frame whose topic equals `T` matches; and a
frame whose topic merely starts with `T` also matches. -/
theorem claim2_raw_frame_filter (T T' M : PyStr) :
    (Subscriber.matchesFilter T (encode T' M) = true ↔ T <+: encode T' M)
      ∧ Subscriber.matchesFilter T (encode T M) = true
      ∧ (T <+: T' → Subscriber.matchesFilter T (encode T' M) = true) := by
  refine ⟨List.isPrefixOf_iff_prefix, ?_, fun h => ?_⟩
  · simp [Subscriber.matchesFilter, encode,
      List.isPrefixOf_iff_prefix, List.prefix_append]
  · rw [Subscriber.matchesFilter, List.isPrefixOf_iff_prefix]
    exact h.trans (List.prefix_append T' ('!' :: M))

/-- Witness for C2: filter `"T"` also matches a frame with topic
`"Temperature"`. -/
theorem claim2_raw_frame_filter_witness :
    Subscriber.matchesFilter "T".data (encode "Temperature".data "20".data)
      = true :=
  (claim2_raw_frame_filter "T".data "Temperature".data "20".data).2.2
    (by decide)

/-- Claim C3: isolation: for topics `T1`, `T2` free of `'!'` with neither a
prefix of the other, a subscriber filtering on `T1` never matches any frame
encoded under topic `T2`, for any payload. -/
theorem claim3_isolation (T1 T2 M : PyStr) (h1 : '!' ∉ T1) (h2 : '!' ∉ T2)
    (h12 : ¬ T1 <+: T2) (h21 : ¬ T2 <+: T1) :
    Subscriber.matchesFilter T1 (encode T2 M) = false := by
  rw [Subscriber.matchesFilter, ← Bool.not_eq_true,
    List.isPrefixOf_iff_prefix]
  intro hpre
  have hT2 : T2 <+: encode T2 M := List.prefix_append T2 ('!' :: M)
  rcases Nat.le_total T1.length T2.length with hle | hle
  · exact h12 (List.prefix_of_prefix_length_le hpre hT2 hle)
  · exact h21 (List.prefix_of_prefix_length_le hT2 hpre hle)

/-- Witness for C3 at filter `"weather"` against topic `"traffic"`. -/
theorem claim3_isolation_witness :
    '!' ∉ "weather".data ∧ '!' ∉ "traffic".data
      ∧ ¬ "weather".data <+: "traffic".data
      ∧ ¬ "traffic".data <+: "weather".data
      ∧ Subscriber.matchesFilter "weather".data
          (encode "traffic".data "jam".data) = false :=
  ⟨by decide, by decide, by decide, by decide,
    claim3_isolation "weather".data "traffic".data "jam".data
      (by decide) (by decide) (by decide) (by decide)⟩

/-- Claim C4: decoding is a pure length-based split: for every frame `F` and
every subscription topic, the extraction removes exactly `len topic + 1`
characters from the front of `F` and returns the remainder, regardless of
where (or whether) `'!'` occurs in `F`. -/
theorem claim4_length_based_split (F T : PyStr) :
    Subscriber.decode F (Subscriber.msg_start T) = F.drop (T.length + 1)
      ∧ F.take (T.length + 1)
          ++ Subscriber.decode F (Subscriber.msg_start T) = F := by
  rw [decode_eq_drop, Subscriber.msg_start]
  exact ⟨rfl, List.take_append_drop _ F⟩

/-- Claim C5: `Publisher.send` puts exactly the string `T ++ "!" ++ M` on the
wire as one text frame: the `str.format` call on template `"\x7b\x7d!\x7b\x7d"`
succeeds and produces the concatenation of topic, one `'!'`, and message. -/
theorem claim5_encode_frame (T M : PyStr) :
    Publisher.sendFrame T M = some (encode T M)
      ∧ encode T M = T ++ '!' :: M := by
  refine ⟨?_, rfl⟩
  simp [Publisher.sendFrame, sendTemplate, pyFormat, encode]

/-- Claim C6: the broker relays every frame received on ingress to egress
verbatim, performing no parsing or topic inspection: the egress stream equals
the ingress stream, and the forwarding loop commutes with any transformation
of the frame contents (it is content-blind). -/
theorem claim6_broker_verbatim (frames : List PyStr) :
    MessageBroker.forwardLoop frames = frames
      ∧ ∀ g : PyStr → PyStr,
          MessageBroker.forwardLoop (frames.map g)
            = (MessageBroker.forwardLoop frames).map g := by
  constructor
  · induction frames with
    | nil => rfl
    | cons f rest ih =>
      simp [MessageBroker.forwardLoop, MessageBroker.forward, ih]
  · intro g
    induction frames with
    | nil => rfl
    | cons f rest ih =>
      simp [MessageBroker.forwardLoop, MessageBroker.forward, ih]

/-- Claim C7: handler exceptions are not caught: if the handler raises on the
frame being dispatched, the receive loop terminates and no later frame is
dispatched; conversely, when the handler never raises, the loop invokes the
handler exactly once per received frame, in order, and does not abort. -/
theorem claim7_handler_fault {σ : Type} (ms : Nat)
    (handler : σ → PyStr → Option σ) (s : σ) :
    (∀ (f : PyStr) (rest : List PyStr),
        handler s (Subscriber.decode f ms) = none →
          Subscriber.runLoop ms handler s (f :: rest)
            = ([Subscriber.decode f ms], none))
      ∧ ((∀ t p, handler t p ≠ none) →
          ∀ frames : List PyStr,
            (Subscriber.runLoop ms handler s frames).1
                = frames.map (fun f => Subscriber.decode f ms)
              ∧ (Subscriber.runLoop ms handler s frames).2 ≠ none) := by
  constructor
  · intro f rest hf
    simp [Subscriber.runLoop, hf]
  · intro hne frames
    exact runLoop_total ms handler hne s frames

/-- The handler used in the witness for C7: raises on payload `"x"`. -/
def faultyHandler : Nat → PyStr → Option Nat :=
  fun t p => if p = ['x'] then none else some t

/-- Witness for C7: a handler raising on the first frame's payload ends the
loop with the remaining frame never dispatched. -/
theorem claim7_handler_fault_witness :
    faultyHandler 0 (Subscriber.decode "abx".data 2) = none
      ∧ Subscriber.runLoop 2 faultyHandler 0 ["abx".data, "zz".data]
          = ([Subscriber.decode "abx".data 2], none) :=
  ⟨by decide,
    (claim7_handler_fault 2 faultyHandler 0).1 "abx".data ["zz".data]
      (by decide)⟩

/-- Claim C8: bind failure is surfaced at startup: if either the ingress or
the egress bind fails, `MessageBroker.run` propagates exactly that error to
its caller, and a successful startup certifies that both binds succeeded
(failures are never swallowed into an `ok`). -/
theorem claim8_bind_failure {ε α : Type} :
    (∀ (e : ε) (back : Except ε α),
        MessageBroker.runBinds (Except.error e) back = Except.error e)
      ∧ (∀ (a : α) (e : ε),
          MessageBroker.runBinds (Except.ok a) (Except.error e)
            = Except.error e)
      ∧ ∀ (front back : Except ε α) (p : α × α),
          MessageBroker.runBinds front back = Except.ok p →
            front = Except.ok p.1 ∧ back = Except.ok p.2 := by
  refine ⟨fun e back => rfl, fun a e => rfl, fun front back p h => ?_⟩
  cases front with
  | error e =>
    rw [show MessageBroker.runBinds (Except.error e) back = Except.error e
      from rfl] at h
    exact Except.noConfusion h
  | ok a =>
    cases back with
    | error e =>
      rw [show MessageBroker.runBinds (Except.ok a) (Except.error e)
          = Except.error e from rfl] at h
      exact Except.noConfusion h
    | ok b =>
      have hab : (a, b) = p := Except.ok.inj h
      subst hab
      exact ⟨rfl, rfl⟩

/-- Witness for C8: a successful startup at concrete binds certifies both. -/
theorem claim8_bind_failure_witness :
    (Except.ok 1 : Except Nat Nat) = Except.ok ((1, 2) : Nat × Nat).1
      ∧ (Except.ok 2 : Except Nat Nat) = Except.ok ((1, 2) : Nat × Nat).2 :=
  claim8_bind_failure.2.2 (Except.ok 1) (Except.ok 2) (1, 2) rfl

/-- Claim C9: payload extraction is total and never fails on short frames:
for every frame `F` of length at most `msg_start`, the slice
`F[msg_start:]` is the empty string rather than an out-of-bounds error,
so the handler is invoked with `""`. -/
theorem claim9_short_frame (F T : PyStr)
    (h : F.length ≤ Subscriber.msg_start T) :
    Subscriber.decode F (Subscriber.msg_start T) = [] := by
  rw [decode_eq_drop]
  exact List.drop_eq_nil_of_le h

/-- Witness for C9: a two-character frame against topic `"weather"`. -/
theorem claim9_short_frame_witness :
    "ab".data.length ≤ Subscriber.msg_start "weather".data
      ∧ Subscriber.decode "ab".data (Subscriber.msg_start "weather".data)
          = [] :=
  ⟨by decide, claim9_short_frame "ab".data "weather".data (by decide)⟩

/-- Claim C10: over-matched frames are decoded incorrectly: when `T` is a
proper prefix of `T'`, the filter `T` matches the frame encoded from
`(T', M)`, the handler receives `drop (len T + 1) (T' ++ "!" ++ M)`, i.e.
the tail of `T'` followed by the separator and `M`, and that string differs
from the true payload `M`. -/
theorem claim10_overmatch_garbles (T T' M : PyStr)
    (hpre : T <+: T') (hne : T ≠ T') :
    Subscriber.matchesFilter T (encode T' M) = true
      ∧ Subscriber.decode (encode T' M) (Subscriber.msg_start T)
          = T'.drop (T.length + 1) ++ '!' :: M
      ∧ Subscriber.decode (encode T' M) (Subscriber.msg_start T) ≠ M := by
  obtain ⟨rest, hrest⟩ := hpre
  cases rest with
  | nil => exact absurd (by simpa using hrest) hne
  | cons r rs =>
    subst hrest
    refine ⟨?_, ?_, ?_⟩
    · rw [Subscriber.matchesFilter, List.isPrefixOf_iff_prefix, encode]
      exact (List.prefix_append T (r :: rs)).trans
        (List.prefix_append _ ('!' :: M))
    · rw [decode_eq_drop, Subscriber.msg_start, encode]
      rw [show T ++ (r :: rs) ++ '!' :: M = (T ++ [r]) ++ (rs ++ '!' :: M)
        by simp]
      rw [List.drop_left' (by simp)]
      rw [show T ++ (r :: rs) = (T ++ [r]) ++ rs by simp]
      rw [List.drop_left' (by simp)]
    · rw [decode_eq_drop, Subscriber.msg_start, encode]
      rw [show T ++ (r :: rs) ++ '!' :: M = (T ++ [r]) ++ (rs ++ '!' :: M)
        by simp]
      rw [List.drop_left' (by simp)]
      intro heq
      have hlen := congrArg List.length heq
      simp at hlen
      omega

/-- Witness for C10: filter `"w"` against topic `"weather"` and payload
`"22"`: the handler receives `"ather!22"`, not `"22"`. -/
theorem claim10_overmatch_garbles_witness :
    "w".data <+: "weather".data ∧ "w".data ≠ "weather".data
      ∧ (Subscriber.matchesFilter "w".data
            (encode "weather".data "22".data) = true
        ∧ Subscriber.decode (encode "weather".data "22".data)
            (Subscriber.msg_start "w".data)
            = "weather".data.drop 2 ++ '!' :: "22".data
        ∧ Subscriber.decode (encode "weather".data "22".data)
            (Subscriber.msg_start "w".data) ≠ "22".data) :=
  ⟨⟨"eather".data, by decide⟩, by decide,
    claim10_overmatch_garbles "w".data "weather".data "22".data
      ⟨"eather".data, by decide⟩ (by decide)⟩
